import Mathlib

/-!
Verification of the atpbar progress-reporting state machine
(`atpbar/machine.py`): the states Initial, Started, Registered and
Disabled, the pickup-task lifecycle (start, sentinel, join), and the
nested acquire/release protocol of `fetch_reporter`.

The embedding makes the side effects of the Python code explicit:
queues, reporters and pickup tasks are identified by allocation
counters held in an `Env`, starting and ending a pickup appends
events to a trace and updates the list of alive pickup ids, and the
generator `fetch_reporter` is split into its acquire step (everything
up to and including the `yield`) and its release step (the `finally`
clause), with a stack of open sessions recording which kind of
release each pending generator will perform.
-/

namespace Atpbar

/-- A `ProgressReporter`, identified by an allocation id, bound to the id of
the queue it writes to (`ProgressReporter(queue=...)` in the source). -/
structure ProgressReporter where
  id : Nat
  queue : Nat
deriving DecidableEq

/-- Observable pickup-lifecycle events: a pickup task starting, the `None`
sentinel being put on a queue, and a pickup task being joined. -/
inductive Ev where
  | startP : Nat → Ev
  | sentinel : Option Nat → Ev
  | joinP : Nat → Ev
deriving DecidableEq

/-- The ambient process environment: allocation counters for queues,
reporters and pickup tasks, the ids of pickup tasks currently alive, and the
trace of pickup-lifecycle events in the order they happened. -/
structure Env where
  nextQueue : Nat
  nextReporter : Nat
  nextPickup : Nat
  alive : List Nat
  trace : List Ev
deriving DecidableEq

/-- `Started._start_pickup`: construct a pickup on the state's queue and
start it.  Returns the id of the new pickup task. -/
def startPickup (q : Option Nat) (e : Env) : Nat × Env :=
  (e.nextPickup,
   { e with
      nextPickup := e.nextPickup + 1
      alive := e.alive ++ [e.nextPickup]
      trace := e.trace ++ [Ev.startP e.nextPickup] })

/-- `Started._end_pickup`: put the `None` sentinel on the queue, then join
the pickup task `pid`. -/
def endPickup (q : Option Nat) (pid : Nat) (e : Env) : Env :=
  { e with
      alive := e.alive.erase pid
      trace := e.trace ++ [Ev.sentinel q, Ev.joinP pid] }

/-- The state variants of `machine.py`.

* `initial reporter queue` — `Initial`: no pickup running; reporter and
  queue optional (possibly carried over from a prior `Started` phase).
* `started reporter queue pickup reporter_yielded to_restart_pickup` —
  `Started` after `__init__` has run: the reporter is always non-None,
  `pickup` is the id of the running pickup task, and the two booleans are
  the mutable bookkeeping flags of the nested-use protocol.
* `registered reporter` — `Registered`.
* `disabled` — `Disabled` (its reporter attribute is `None`). -/
inductive St where
  | initial : Option ProgressReporter → Option Nat → St
  | started : ProgressReporter → Option Nat → Nat → Bool → Bool → St
  | registered : ProgressReporter → St
  | disabled : St
deriving DecidableEq

/-- `Started.__init__`: keep the given reporter and queue; if the reporter
is `None`, first create a queue when that is also `None` and then create a
reporter on the queue; finally `_start_pickup`.  The bookkeeping flags
start as `reporter_yielded = False`, `to_restart_pickup = True`. -/
def startedInit : Option ProgressReporter → Option Nat → Env → St × Env
  | some r, q, e =>
      let pe := startPickup q e
      (St.started r q pe.1 false true, pe.2)
  | none, q, e =>
      let qe : Nat × Env :=
        match q with
        | some q0 => (q0, e)
        | none => (e.nextQueue, { e with nextQueue := e.nextQueue + 1 })
      let r : ProgressReporter := ⟨qe.2.nextReporter, qe.1⟩
      let e2 : Env := { qe.2 with nextReporter := qe.2.nextReporter + 1 }
      let pe := startPickup (some qe.1) e2
      (St.started r (some qe.1) pe.1 false true, pe.2)

/-- `prepare_reporter`: `Initial` transitions to `Started`; every other
state returns itself (the `State` base default). -/
def prepare_reporter : St → Env → St × Env
  | St.initial r q, e => startedInit r q e
  | s, e => (s, e)

/-- `State.register_reporter` (no state overrides it): unconditionally
produce `Registered(reporter)`. -/
def register_reporter (s : St) (r : ProgressReporter) : St :=
  St.registered r

/-- `State.disable` (no state overrides it): unconditionally produce
`Disabled()`. -/
def disable (s : St) : St :=
  St.disabled

/-- `flush`: `Initial` behaves like `prepare_reporter`; `Started` runs
`_restart_pickup` (end the running pickup, start a fresh one) and stays
itself; every other state returns itself (the base default). -/
def flush : St → Env → St × Env
  | St.initial r q, e => startedInit r q e
  | St.started r q pid ry trp, e =>
      let e1 := endPickup q pid e
      let pe := startPickup q e1
      (St.started r q pe.1 ry trp, pe.2)
  | s, e => (s, e)

/-- `shutdown`: `Started` runs `_end_pickup` and transitions to `Initial`,
carrying its reporter and queue forward; every other state returns itself
(the base default). -/
def shutdown : St → Env → St × Env
  | St.started r q pid _ _, e => (St.initial (some r) q, endPickup q pid e)
  | s, e => (s, e)

/-- What the release step of a suspended `fetch_reporter` generator will
do: `passthrough` for the paths that `return` right after their `yield`
(non-main thread, nested main-thread call, and the non-`Started` states),
`outermost` for the main-thread path that set the bookkeeping flags and
whose `finally` clause performs the reset and the conditional restart. -/
inductive SessionKind where
  | passthrough
  | outermost
deriving DecidableEq

/-- The acquire step of `StateMachine.fetch_reporter`: first
`prepare_reporter` under the lock, then the state's `fetch_reporter` up to
and including its `yield`.  `main` is the value of `in_main_thread()`.
Returns the new state, the environment, the yielded value, and the kind of
release the suspended generator will perform. -/
def fetch_acquire (main : Bool) (s : St) (e : Env) :
    St × Env × Option ProgressReporter × SessionKind :=
  let se := prepare_reporter s e
  match se.1 with
  | St.started r q pid ry trp =>
      cond (!main)
        (St.started r q pid ry trp, se.2, some r, SessionKind.passthrough)
        (cond ry
          (St.started r q pid ry trp, se.2, some r, SessionKind.passthrough)
          (St.started r q pid true true, se.2, some r, SessionKind.outermost))
  | St.registered r => (St.registered r, se.2, some r, SessionKind.passthrough)
  | St.disabled => (St.disabled, se.2, none, SessionKind.passthrough)
  | St.initial r q => (St.initial r q, se.2, r, SessionKind.passthrough)

/-- The release step of a `fetch_reporter` generator.  A `passthrough`
session has nothing after its `yield`.  An `outermost` session runs the
`finally` clause of `Started.fetch_reporter`: reset `reporter_yielded` to
`False`; if `to_restart_pickup` is still `True`, re-acquire the lock and
`_restart_pickup`, otherwise return. -/
def fetch_release : SessionKind → St → Env → St × Env
  | SessionKind.passthrough, s, e => (s, e)
  | SessionKind.outermost, St.started r q pid _ trp, e =>
      cond trp
        (let e1 := endPickup q pid e
         let pe := startPickup q e1
         (St.started r q pe.1 false trp, pe.2))
        (St.started r q pid false trp, e)
  | SessionKind.outermost, s, e => (s, e)

/-- `Started.detach`, the callback handed to the pickup: set
`to_restart_pickup = False`.  On any other state it has no effect (no
other state owns the flag). -/
def detach : St → St
  | St.started r q pid ry _ => St.started r q pid ry false
  | s => s

/-- The reporter attribute read by `StateMachine.find_reporter`:
`Initial` may hold one, `Started` and `Registered` always do, `Disabled`
holds `None`. -/
def St.reporter : St → Option ProgressReporter
  | St.initial r _ => r
  | St.started r _ _ _ _ => some r
  | St.registered r => some r
  | St.disabled => none

/-- A configuration of the `StateMachine`: the current state, the process
environment, and the stack of open `fetch_reporter` sessions (innermost
first). -/
structure Conf where
  st : St
  env : Env
  stack : List SessionKind
deriving DecidableEq

/-- `StateMachine.find_reporter`: under the lock replace the state by
`prepare_reporter` of it, then return the new state's reporter. -/
def find_reporter (c : Conf) : Option ProgressReporter × Conf :=
  let se := prepare_reporter c.st c.env
  (se.1.reporter, ⟨se.1, se.2, c.stack⟩)

/-- The operations a caller can perform on the machine.  `acquire main`
starts consuming a `fetch_reporter` generator (up to its `yield`) and
`release` finishes the innermost open one; `detach` is the pickup invoking
the callback. -/
inductive Act where
  | find : Act
  | register : ProgressReporter → Act
  | flush : Act
  | disable : Act
  | shutdown : Act
  | acquire : Bool → Act
  | release : Act
  | detach : Act
deriving DecidableEq

/-- One machine operation on a configuration. -/
def step (c : Conf) : Act → Conf
  | Act.find =>
      let se := prepare_reporter c.st c.env
      ⟨se.1, se.2, c.stack⟩
  | Act.register r => ⟨register_reporter c.st r, c.env, c.stack⟩
  | Act.flush =>
      let se := flush c.st c.env
      ⟨se.1, se.2, c.stack⟩
  | Act.disable => ⟨disable c.st, c.env, c.stack⟩
  | Act.shutdown =>
      let se := shutdown c.st c.env
      ⟨se.1, se.2, c.stack⟩
  | Act.acquire main =>
      let r := fetch_acquire main c.st c.env
      ⟨r.1, r.2.1, r.2.2.2 :: c.stack⟩
  | Act.release =>
      match c.stack with
      | [] => c
      | k :: ks =>
          let se := fetch_release k c.st c.env
          ⟨se.1, se.2, ks⟩
  | Act.detach => ⟨detach c.st, c.env, c.stack⟩

/-- Run a list of operations in order. -/
def runActs (c : Conf) : List Act → Conf
  | [] => c
  | a :: as => runActs (step c a) as

/-- `n` nested main-thread `fetch_reporter` usages, each opened and closed
in turn. -/
def nestedCalls : Nat → List Act
  | 0 => []
  | n + 1 => Act.acquire true :: Act.release :: nestedCalls n

/-- Number of pickup starts recorded in a trace. -/
def countStarts (t : List Ev) : Nat :=
  t.countP fun ev => match ev with | Ev.startP _ => true | _ => false

/-- Number of pickup joins (terminations) recorded in a trace. -/
def countJoins (t : List Ev) : Nat :=
  t.countP fun ev => match ev with | Ev.joinP _ => true | _ => false

/-- States that never manage a pickup task: `Registered` and `Disabled`.
Both rely entirely on the `State` base-class defaults for
`prepare_reporter`, `flush` and `shutdown`, all of which return the state
itself. -/
def isPassive : St → Bool
  | St.registered _ => true
  | St.disabled => true
  | _ => false

/-- How the consumer of the suspended `fetch_reporter` generator leaves it:
resuming it past the yield (normal completion of the `with` / `for` body),
abandoning the sequence early (Python closes the generator), or an
exception propagating through the caller's loop body (thrown into the
generator). -/
inductive ExitMode where
  | normal : ExitMode
  | abandoned : ExitMode
  | raised : ExitMode
deriving DecidableEq

/-- Phase of a suspended `fetch_reporter` generator: suspended at its
`yield`, or already finished. -/
inductive GenPhase where
  | yielded : GenPhase
  | finished : GenPhase
deriving DecidableEq

/-- Modelled from the `try ... finally` in `Started.fetch_reporter`:
whichever way the consumer leaves the generator suspended at its single
yield — resuming it to completion, closing it on early abandonment, or
throwing the caller's exception into it — Python runs the `finally`
clause, i.e. the release step, exactly once, after which the generator is
finished and performs no further release. -/
def gen_exit (mode : ExitMode) : GenPhase → Conf → GenPhase × Conf
  | GenPhase.yielded, c => (GenPhase.finished, step c Act.release)
  | GenPhase.finished, c => (GenPhase.finished, c)

/-! ### Basic step lemmas -/

lemma step_acquire_nested (r : ProgressReporter) (q : Option Nat) (pid : Nat)
    (trp : Bool) (e : Env) (stk : List SessionKind) :
    step ⟨St.started r q pid true trp, e, stk⟩ (Act.acquire true)
      = ⟨St.started r q pid true trp, e, SessionKind.passthrough :: stk⟩ :=
  rfl

lemma step_release_passthrough (s : St) (e : Env) (stk : List SessionKind) :
    step ⟨s, e, SessionKind.passthrough :: stk⟩ Act.release = ⟨s, e, stk⟩ :=
  rfl

lemma countStarts_append (t u : List Ev) :
    countStarts (t ++ u) = countStarts t + countStarts u := by
  simp [countStarts, List.countP_append]

lemma countJoins_append (t u : List Ev) :
    countJoins (t ++ u) = countJoins t + countJoins u := by
  simp [countJoins, List.countP_append]

/-- A well-nested run of inner main-thread `fetch_reporter` usages, opened
while the reporter is already yielded, changes nothing: each inner acquire
is a passthrough and each inner release is a no-op. -/
lemma runActs_nested (r : ProgressReporter) (q : Option Nat) (pid : Nat)
    (trp : Bool) (e : Env) (stk : List SessionKind) :
    ∀ (n : Nat) (rest : List Act),
      runActs ⟨St.started r q pid true trp, e, stk⟩ (nestedCalls n ++ rest)
        = runActs ⟨St.started r q pid true trp, e, stk⟩ rest := by
  intro n
  induction n with
  | zero => intro rest; rfl
  | succ m ih =>
      intro rest
      have h1 : nestedCalls (m + 1) ++ rest
          = Act.acquire true :: Act.release :: (nestedCalls m ++ rest) := rfl
      rw [h1, runActs, step_acquire_nested, runActs, step_release_passthrough, ih]

/-- A single operation on a passive state (`Registered` or `Disabled`)
leaves the environment untouched — no pickup task is started, stopped or
restarted — and leads to another passive state. -/
lemma step_passive (s : St) (e : Env) (stk : List SessionKind) (a : Act)
    (h : isPassive s = true) :
    (step ⟨s, e, stk⟩ a).env = e ∧ isPassive (step ⟨s, e, stk⟩ a).st = true := by
  cases s with
  | initial r q => simp [isPassive] at h
  | started r q pid ry trp => simp [isPassive] at h
  | registered r =>
      cases a with
      | release =>
          cases stk with
          | nil => exact ⟨rfl, rfl⟩
          | cons k ks => cases k <;> exact ⟨rfl, rfl⟩
      | _ => exact ⟨rfl, rfl⟩
  | disabled =>
      cases a with
      | release =>
          cases stk with
          | nil => exact ⟨rfl, rfl⟩
          | cons k ks => cases k <;> exact ⟨rfl, rfl⟩
      | _ => exact ⟨rfl, rfl⟩

/-- Any sequence of operations started from a passive state leaves the
environment untouched. -/
lemma runActs_passive (acts : List Act) :
    ∀ (s : St) (e : Env) (stk : List SessionKind), isPassive s = true →
      (runActs ⟨s, e, stk⟩ acts).env = e ∧
      isPassive (runActs ⟨s, e, stk⟩ acts).st = true := by
  induction acts with
  | nil => intro s e stk h; exact ⟨rfl, h⟩
  | cons a as ih =>
      intro s e stk h
      have h1 := step_passive s e stk a h
      rw [runActs]
      rcases hc : step ⟨s, e, stk⟩ a with ⟨s2, e2, stk2⟩
      rw [hc] at h1
      obtain ⟨he, hp⟩ := h1
      rw [← he]
      exact ih s2 e2 stk2 hp

/-- `prepare_reporter` never records a pickup join: `Initial` only starts
a fresh pickup, every other state returns itself. -/
lemma countJoins_prepare (s : St) (e : Env) :
    countJoins ((prepare_reporter s e).2.trace) = countJoins e.trace := by
  cases s with
  | initial r q =>
      cases r with
      | some r0 =>
          simp [prepare_reporter, startedInit, startPickup,
            countJoins_append, countJoins]
      | none =>
          cases q <;>
            simp [prepare_reporter, startedInit, startPickup,
              countJoins_append, countJoins]
  | started r q pid ry trp => rfl
  | registered r => rfl
  | disabled => rfl

/-- The acquire step of `fetch_reporter` returns the environment produced
by `prepare_reporter`: no branch of any state's `fetch_reporter` touches
the environment before its yield. -/
lemma fetch_acquire_env (main : Bool) (s : St) (e : Env) :
    (fetch_acquire main s e).2.1 = (prepare_reporter s e).2 := by
  unfold fetch_acquire
  rcases hp : prepare_reporter s e with ⟨s2, e2⟩
  cases s2 with
  | initial r q => rfl
  | started r q pid ry trp => cases main <;> cases ry <;> rfl
  | registered r => rfl
  | disabled => rfl

/-! ### Claims -/

/-- Claim C1: for every sequence of nested `fetch_reporter` calls on the
main thread of the main process in the `Started` state, exactly one pickup
restart occurs per outermost call and none per nested call.  The outermost
acquire (finding `reporter_yielded` false) sets both bookkeeping flags and
yields the reporter without touching the environment; a nested acquire
(finding `reporter_yielded` true) yields the reporter as a passthrough;
any number of nested acquire/release pairs change nothing at all; and the
whole outermost usage adds exactly one pickup start to the trace, at the
outermost release. -/
theorem C1_nested_fetch_single_restart (r : ProgressReporter) (q : Option Nat)
    (pid : Nat) (trp : Bool) (e : Env) (stk : List SessionKind) (n : Nat) :
    fetch_acquire true (St.started r q pid false trp) e
      = (St.started r q pid true true, e, some r, SessionKind.outermost) ∧
    fetch_acquire true (St.started r q pid true true) e
      = (St.started r q pid true true, e, some r, SessionKind.passthrough) ∧
    runActs ⟨St.started r q pid true true, e, SessionKind.outermost :: stk⟩
        (nestedCalls n)
      = ⟨St.started r q pid true true, e, SessionKind.outermost :: stk⟩ ∧
    countStarts ((runActs ⟨St.started r q pid false trp, e, stk⟩
        (Act.acquire true :: (nestedCalls n ++ [Act.release]))).env.trace)
      = countStarts e.trace + 1 := by
  refine ⟨rfl, rfl, ?_, ?_⟩
  · have h := runActs_nested r q pid true e (SessionKind.outermost :: stk) n []
    simpa using h
  · rw [runActs]
    have hstep : step ⟨St.started r q pid false trp, e, stk⟩ (Act.acquire true)
        = ⟨St.started r q pid true true, e, SessionKind.outermost :: stk⟩ := rfl
    rw [hstep, runActs_nested, runActs, runActs]
    show countStarts ((e.trace ++ [Ev.sentinel q, Ev.joinP pid])
        ++ [Ev.startP e.nextPickup]) = countStarts e.trace + 1
    rw [countStarts_append, countStarts_append]
    simp [countStarts]

/-- Claim C2: if `detach` is invoked at any point during an outermost
main-thread `fetch_reporter` usage in the `Started` state (clearing
`to_restart_pickup`), then the release of that usage performs no pickup
restart: it only resets `reporter_yielded` to false, and the environment —
alive pickups and event trace — is exactly what it was before the usage
began, however many nested usages surround the `detach`. -/
theorem C2_detach_suppresses_restart (r : ProgressReporter) (q : Option Nat)
    (pid : Nat) (trp : Bool) (e : Env) (stk : List SessionKind) (m n : Nat) :
    runActs ⟨St.started r q pid false trp, e, stk⟩
        (Act.acquire true
          :: (nestedCalls m ++ Act.detach :: (nestedCalls n ++ [Act.release])))
      = ⟨St.started r q pid false false, e, stk⟩ := by
  rw [runActs]
  have hstep : step ⟨St.started r q pid false trp, e, stk⟩ (Act.acquire true)
      = ⟨St.started r q pid true true, e, SessionKind.outermost :: stk⟩ := rfl
  rw [hstep, runActs_nested, runActs]
  have hdet : step ⟨St.started r q pid true true, e, SessionKind.outermost :: stk⟩
      Act.detach
      = ⟨St.started r q pid true false, e, SessionKind.outermost :: stk⟩ := rfl
  rw [hdet, runActs_nested, runActs, runActs]
  rfl

/-- Claim C3: from `Started` (with its pickup `pid` the only alive task),
`shutdown` ends the pickup (sentinel then join, leaving no task alive) and
transitions to `Initial` carrying the same reporter and queue forward; a
subsequent `find_reporter` transitions back to `Started`, starts exactly
one new pickup task (id `np`, the only alive one), and returns the very
same reporter `r`; no new reporter or queue is constructed (the allocation
counters `nq` and `nr` are unchanged). -/
theorem C3_shutdown_then_find_reuses_reporter (r : ProgressReporter)
    (q : Option Nat) (pid nq nr np : Nat) (ry trp : Bool) (tr : List Ev) :
    step ⟨St.started r q pid ry trp, ⟨nq, nr, np, [pid], tr⟩, []⟩ Act.shutdown
      = ⟨St.initial (some r) q,
          ⟨nq, nr, np, [], tr ++ [Ev.sentinel q, Ev.joinP pid]⟩, []⟩ ∧
    find_reporter ⟨St.initial (some r) q,
        ⟨nq, nr, np, [], tr ++ [Ev.sentinel q, Ev.joinP pid]⟩, []⟩
      = (some r, ⟨St.started r q np false true,
          ⟨nq, nr, np + 1, [np],
            tr ++ [Ev.sentinel q, Ev.joinP pid, Ev.startP np]⟩, []⟩) := by
  constructor
  · simp [step, shutdown, endPickup, List.erase_cons_head]
  · simp [find_reporter, prepare_reporter, startedInit, startPickup, St.reporter]

/-- Claim C4: for the outermost main-thread `fetch_reporter` usage in the
`Started` state, the release step runs exactly once on every exit path of
the consumer.  For each of the three exit modes — normal completion, early
abandonment, and an exception propagating through the caller's loop body —
leaving the suspended generator produces the identical configuration,
namely the one release step applied once: `reporter_yielded` is reset to
false and (since `to_restart_pickup` was set at the acquire and nothing
cleared it) exactly one pickup restart is performed; leaving the already
finished generator again, in any mode, performs no further release. -/
theorem C4_release_runs_once_on_every_exit (r : ProgressReporter)
    (q : Option Nat) (pid : Nat) (trp : Bool) (e : Env)
    (stk : List SessionKind) (mode mode2 : ExitMode) :
    gen_exit mode GenPhase.yielded
        (step ⟨St.started r q pid false trp, e, stk⟩ (Act.acquire true))
      = (GenPhase.finished,
          step (step ⟨St.started r q pid false trp, e, stk⟩ (Act.acquire true))
            Act.release) ∧
    (step (step ⟨St.started r q pid false trp, e, stk⟩ (Act.acquire true))
        Act.release).st
      = St.started r q e.nextPickup false true ∧
    countStarts ((step (step ⟨St.started r q pid false trp, e, stk⟩
        (Act.acquire true)) Act.release).env.trace)
      = countStarts e.trace + 1 ∧
    gen_exit mode2 GenPhase.finished
        (step (step ⟨St.started r q pid false trp, e, stk⟩ (Act.acquire true))
          Act.release)
      = (GenPhase.finished,
          step (step ⟨St.started r q pid false trp, e, stk⟩ (Act.acquire true))
            Act.release) := by
  refine ⟨rfl, rfl, ?_, rfl⟩
  show countStarts ((e.trace ++ [Ev.sentinel q, Ev.joinP pid])
      ++ [Ev.startP e.nextPickup]) = countStarts e.trace + 1
  rw [countStarts_append, countStarts_append]
  simp [countStarts]

/-- Claim C5 counterexample: `flush` on the `Disabled` state is the
base-class identity.  Starting from `Disabled` with no pickup alive,
`flush` leaves the configuration exactly as it was, with zero pickup tasks
alive — not exactly one — so `flush` does not result in exactly one alive
pickup task in every state. -/
theorem C5_counterexample_flush_disabled :
    step ⟨St.disabled, ⟨0, 0, 0, [], []⟩, []⟩ Act.flush
      = ⟨St.disabled, ⟨0, 0, 0, [], []⟩, []⟩ ∧
    ¬ (step ⟨St.disabled, ⟨0, 0, 0, [], []⟩, []⟩ Act.flush).env.alive.length = 1 := by
  constructor
  · rfl
  · decide

/-- Claim C5 amended: `flush` from `Started` ends the running pickup and
starts a fresh one — the sentinel and join of the old pickup precede the
start of the new one in the trace, and exactly one pickup is alive
afterwards; `flush` from `Initial` transitions to `Started` with exactly
one freshly started pickup alive; `flush` from `Registered` or `Disabled`
is the inherited base-class identity, starting and stopping nothing. -/
theorem C5_amended_flush_each_state (r : ProgressReporter) (q : Option Nat)
    (pid nq nr np : Nat) (ry trp : Bool) (tr : List Ev)
    (r0 : Option ProgressReporter) (q0 : Option Nat) (nq2 nr2 np2 : Nat)
    (tr2 : List Ev) (r3 : ProgressReporter) (e3 : Env)
    (stk : List SessionKind) :
    step ⟨St.started r q pid ry trp, ⟨nq, nr, np, [pid], tr⟩, stk⟩ Act.flush
      = ⟨St.started r q np ry trp,
          ⟨nq, nr, np + 1, [np],
            tr ++ [Ev.sentinel q, Ev.joinP pid, Ev.startP np]⟩, stk⟩ ∧
    (step ⟨St.initial r0 q0, ⟨nq2, nr2, np2, [], tr2⟩, stk⟩ Act.flush).env.alive.length
      = 1 ∧
    (∃ r4 q4 pid4,
      (step ⟨St.initial r0 q0, ⟨nq2, nr2, np2, [], tr2⟩, stk⟩ Act.flush).st
        = St.started r4 q4 pid4 false true) ∧
    step ⟨St.registered r3, e3, stk⟩ Act.flush = ⟨St.registered r3, e3, stk⟩ ∧
    step ⟨St.disabled, e3, stk⟩ Act.flush = ⟨St.disabled, e3, stk⟩ := by
  refine ⟨?_, ?_, ?_, rfl, rfl⟩
  · simp [step, flush, endPickup, startPickup, List.erase_cons_head]
  · cases r0 <;> cases q0 <;>
      simp [step, flush, startedInit, startPickup]
  · cases r0 <;> cases q0 <;>
      exact ⟨_, _, _, rfl⟩

/-- Claim C6 counterexample: `shutdown` on `Disabled` is the base-class
default `return self`: the state after `shutdown` is still `Disabled`, so
`shutdown` does not move `Disabled` onward to any other state. -/
theorem C6_counterexample_shutdown_keeps_disabled :
    shutdown St.disabled ⟨0, 0, 0, [], []⟩ = (St.disabled, ⟨0, 0, 0, [], []⟩) ∧
    (step ⟨St.disabled, ⟨0, 0, 0, [], []⟩, []⟩ Act.shutdown).st = St.disabled := by
  exact ⟨rfl, rfl⟩

/-- Claim C6 amended: from `Disabled`, the base-class default
`register_reporter(r)` produces `Registered(r)`, so `Disabled` can
transition onward that way; the base-class default `shutdown`, however,
returns the same state, so `Disabled` stays `Disabled` under `shutdown`
(it does not move onward). -/
theorem C6_amended_disabled_defaults (r : ProgressReporter) (e : Env) :
    register_reporter St.disabled r = St.registered r ∧
    shutdown St.disabled e = (St.disabled, e) :=
  ⟨rfl, rfl⟩

/-- Claim C7: from the `Initial` state (with any carried reporter and
queue), `find_reporter` returns a non-null reporter and leaves the machine
in `Started` with a live pickup task: the returned reporter is the
`Started` state's reporter, its bookkeeping flags start as
`reporter_yielded = false`, `to_restart_pickup = true`, and the id of the
started pickup is in the alive list. -/
theorem C7_initial_find_starts_pickup (r0 : Option ProgressReporter)
    (q0 : Option Nat) (e : Env) (stk : List SessionKind) :
    ((find_reporter ⟨St.initial r0 q0, e, stk⟩).1).isSome = true ∧
    ∃ r q pid,
      (find_reporter ⟨St.initial r0 q0, e, stk⟩).2.st = St.started r q pid false true ∧
      (find_reporter ⟨St.initial r0 q0, e, stk⟩).1 = some r ∧
      pid ∈ (find_reporter ⟨St.initial r0 q0, e, stk⟩).2.env.alive := by
  cases r0 <;> cases q0 <;>
    refine ⟨rfl, _, _, _, rfl, rfl, ?_⟩ <;>
    · show _ ∈ _ ++ [_]
      simp [startPickup]

/-- Claim C8: a `Registered` state never starts, stops, or restarts any
pickup task across any sequence of operations: every run of operations
from `Registered` leaves the environment (alive pickups and event trace)
exactly as it was; `prepare_reporter`, `flush` and `shutdown` (the
inherited base defaults) return the state unchanged without touching any
task; and its `fetch_reporter` is a pure passthrough yielding the held
reporter. -/
theorem C8_registered_never_touches_tasks (r : ProgressReporter) (e : Env)
    (stk : List SessionKind) (acts : List Act) (main : Bool) :
    (runActs ⟨St.registered r, e, stk⟩ acts).env = e ∧
    prepare_reporter (St.registered r) e = (St.registered r, e) ∧
    flush (St.registered r) e = (St.registered r, e) ∧
    shutdown (St.registered r) e = (St.registered r, e) ∧
    fetch_acquire main (St.registered r) e
      = (St.registered r, e, some r, SessionKind.passthrough) := by
  exact ⟨(runActs_passive acts (St.registered r) e stk rfl).1, rfl, rfl, rfl, rfl⟩

/-- Claim C9: in the `Disabled` state, the inherited `fetch_reporter`
always yields `None` (as a passthrough, with no side effect), and
`find_reporter` on a `Disabled` machine returns `None` leaving the
configuration unchanged, since `Disabled` holds no reporter and
`prepare_reporter` leaves it `Disabled`. -/
theorem C9_disabled_yields_none (main : Bool) (e : Env)
    (stk : List SessionKind) :
    fetch_acquire main St.disabled e
      = (St.disabled, e, none, SessionKind.passthrough) ∧
    (find_reporter ⟨St.disabled, e, stk⟩).1 = none ∧
    find_reporter ⟨St.disabled, e, stk⟩ = (none, ⟨St.disabled, e, stk⟩) := by
  exact ⟨rfl, rfl, rfl⟩

/-- Claim C10 counterexample: the release of an outermost main-thread
`fetch_reporter` usage also terminates a pickup task (it restarts the
pickup, which first puts the sentinel and joins the old task): from a
`Started` configuration with pickup 0 alive, an acquire followed by its
release records one join in the trace, although neither `shutdown` nor
`flush` was invoked — so `shutdown` and `flush` are not the only
operations that ever terminate a pickup. -/
theorem C10_counterexample_release_terminates :
    countJoins ((runActs ⟨St.started ⟨0, 0⟩ (some 0) 0 false true,
        ⟨1, 1, 1, [0], [Ev.startP 0]⟩, []⟩
        [Act.acquire true, Act.release]).env.trace) = 1 ∧
    countJoins [Ev.startP 0] = 0 := by
  exact ⟨by decide, by decide⟩

/-- Claim C10 amended: calling `disable` or `register_reporter(r2)` while
the current state is `Started` replaces the state with `Disabled` or
`Registered` without terminating the running pickup task — the environment
is untouched, so no sentinel is put on the queue, no join occurs, and the
pickup is left alive, orphaned by the state that abandoned it; a pickup is
only ever terminated by `shutdown`, `flush`, or the pickup restart at the
release of an outermost `fetch_reporter` usage: any operation that changes
the number of recorded joins is one of those three. -/
theorem C10_amended_orphaned_pickup (r r2 : ProgressReporter)
    (q : Option Nat) (pid : Nat) (ry trp : Bool) (e : Env)
    (stk : List SessionKind) (c : Conf) (a : Act)
    (h : countJoins ((step c a).env.trace) ≠ countJoins c.env.trace) :
    step ⟨St.started r q pid ry trp, e, stk⟩ Act.disable
      = ⟨St.disabled, e, stk⟩ ∧
    step ⟨St.started r q pid ry trp, e, stk⟩ (Act.register r2)
      = ⟨St.registered r2, e, stk⟩ ∧
    (a = Act.flush ∨ a = Act.shutdown ∨ a = Act.release) := by
  refine ⟨rfl, rfl, ?_⟩
  cases a with
  | flush => exact Or.inl rfl
  | shutdown => exact Or.inr (Or.inl rfl)
  | release => exact Or.inr (Or.inr rfl)
  | find =>
      exfalso
      apply h
      show countJoins ((prepare_reporter c.st c.env).2.trace) = _
      exact countJoins_prepare c.st c.env
  | register r4 => exact absurd rfl h
  | disable => exact absurd rfl h
  | detach => exact absurd rfl h
  | acquire main =>
      exfalso
      apply h
      show countJoins ((fetch_acquire main c.st c.env).2.1.trace) = _
      rw [fetch_acquire_env]
      exact countJoins_prepare c.st c.env

/-- Witness for the amended claim C10, at a concrete `Started`
configuration and the concrete terminating operation `shutdown`. -/
theorem C10_amended_orphaned_pickup_witness :
    step ⟨St.started ⟨0, 0⟩ (some 0) 5 false true, ⟨1, 1, 1, [5], []⟩, []⟩
        Act.disable
      = ⟨St.disabled, ⟨1, 1, 1, [5], []⟩, []⟩ ∧
    step ⟨St.started ⟨0, 0⟩ (some 0) 5 false true, ⟨1, 1, 1, [5], []⟩, []⟩
        (Act.register ⟨2, 3⟩)
      = ⟨St.registered ⟨2, 3⟩, ⟨1, 1, 1, [5], []⟩, []⟩ ∧
    (Act.shutdown = Act.flush ∨ Act.shutdown = Act.shutdown ∨
      Act.shutdown = Act.release) :=
  C10_amended_orphaned_pickup ⟨0, 0⟩ ⟨2, 3⟩ (some 0) 5 false true
    ⟨1, 1, 1, [5], []⟩ []
    ⟨St.started ⟨0, 0⟩ (some 0) 0 false true, ⟨1, 1, 1, [0], []⟩, []⟩
    Act.shutdown (by decide)

end Atpbar
